import Mathlib

/-!
Shallow embedding of `nfsd.go` from the procfs repository: the parser for
`/proc/net/rpc/nfsd`.  Machine `uint64` values are modelled as `Nat`; the
token decoder rejects any value that does not fit in 64 bits, so every
stored counter is below `2 ^ 64` by construction.  The byte stream is
modelled as a `String`; line splitting follows `bufio.ScanLines` and token
splitting follows `strings.Fields`.
-/

/-- rc line: Reply Cache (struct `NFSdReplyCache` in the source). -/
structure NFSdReplyCache where
  Hits : Nat
  Misses : Nat
  NoCache : Nat
deriving DecidableEq

/-- fh line: File Handles (struct `NFSdFileHandles`). -/
structure NFSdFileHandles where
  Stale : Nat
  TotalLookups : Nat
  AnonLookups : Nat
  DirNoCache : Nat
  NoDirNoCache : Nat
deriving DecidableEq

/-- io line: Input Output (struct `NFSdInputOutput`). -/
structure NFSdInputOutput where
  Read : Nat
  Write : Nat
deriving DecidableEq

/-- th line: Threads (struct `NFSdThreads`). -/
structure NFSdThreads where
  Threads : Nat
  FullCnt : Nat
deriving DecidableEq

/-- ra line: Read Ahead Cache (struct `NFSdReadAheadCache`).  The Go field
`CacheHistogram [10]uint64` is modelled as a `List Nat`; its zero value is
ten zeros. -/
structure NFSdReadAheadCache where
  CacheSize : Nat
  CacheHistogram : List Nat
  NotFound : Nat
deriving DecidableEq

/-- net line: Network (struct `NFSdNetwork`). -/
structure NFSdNetwork where
  NetCount : Nat
  UDPCount : Nat
  TCPCount : Nat
  TCPConnect : Nat
deriving DecidableEq

/-- rpc line (struct `NFSdRPC`). -/
structure NFSdRPC where
  RPCCount : Nat
  BadCnt : Nat
  BadFmt : Nat
  BadAuth : Nat
  BadcInt : Nat
deriving DecidableEq

/-- proc2 line: NFSv2 Stats (struct `NFSdv2Stats`). -/
structure NFSdv2Stats where
  Values : Nat
  Null : Nat
  GetAttr : Nat
  SetAttr : Nat
  Root : Nat
  Lookup : Nat
  ReadLink : Nat
  Read : Nat
  WrCache : Nat
  Write : Nat
  Create : Nat
  Remove : Nat
  Rename : Nat
  Link : Nat
  SymLink : Nat
  MkDir : Nat
  RmDir : Nat
  ReadDir : Nat
  FsStat : Nat
deriving DecidableEq

/-- proc3 line: NFSv3 Stats (struct `NFSdv3Stats`). -/
structure NFSdv3Stats where
  Values : Nat
  Null : Nat
  GetAttr : Nat
  SetAttr : Nat
  Lookup : Nat
  Access : Nat
  ReadLink : Nat
  Read : Nat
  Write : Nat
  Create : Nat
  MkDir : Nat
  SymLink : Nat
  MkNod : Nat
  Remove : Nat
  RmDir : Nat
  Rename : Nat
  Link : Nat
  ReadDir : Nat
  ReadDirPlus : Nat
  FsStat : Nat
  FsInfo : Nat
  PathConf : Nat
  Commit : Nat
deriving DecidableEq

/-- proc4 line: NFSv4 Stats (struct `NFSdv4Stats`). -/
structure NFSdv4Stats where
  Values : Nat
  Null : Nat
  Compound : Nat
deriving DecidableEq

/-- proc4ops line: NFSv4 operations (struct `NFSdv4Ops`). -/
structure NFSdv4Ops where
  Values : Nat
  Op0Unused : Nat
  Op1Unused : Nat
  Op2Future : Nat
  Access : Nat
  Close : Nat
  Commit : Nat
  Create : Nat
  DelegPurge : Nat
  DelegReturn : Nat
  GetAttr : Nat
  GetFH : Nat
  Link : Nat
  Lock : Nat
  Lockt : Nat
  Locku : Nat
  Lookup : Nat
  LookupRoot : Nat
  Nverify : Nat
  Open : Nat
  OpenAttr : Nat
  OpenConfirm : Nat
  OpenDgrd : Nat
  PutFH : Nat
  PutPubFH : Nat
  PutRootFH : Nat
  Read : Nat
  ReadDir : Nat
  ReadLink : Nat
  Remove : Nat
  Rename : Nat
  Renew : Nat
  RestoreFH : Nat
  SaveFH : Nat
  SecInfo : Nat
  SetAttr : Nat
  Verify : Nat
  Write : Nat
  RelLockOwner : Nat
deriving DecidableEq

/-- All stats from `/proc/net/rpc/nfsd` (struct `NFSdRPCStats` in the
source).  The Go declaration also lists a field `NFSdRPCStats` of the
struct's own type; that recursive field is not representable as data and is
never read or written by any code in the file, so it is omitted here. -/
structure NFSdRPCStats where
  NFSdReplyCache : NFSdReplyCache
  NFSdFileHandles : NFSdFileHandles
  NFSdInputOutput : NFSdInputOutput
  NFSdThreads : NFSdThreads
  NFSdReadAheadCache : NFSdReadAheadCache
  NFSdNetwork : NFSdNetwork
  NFSdRPC : NFSdRPC
  NFSdv2Stats : NFSdv2Stats
  NFSdv3Stats : NFSdv3Stats
  NFSdv4Stats : NFSdv4Stats
  NFSdv4Ops : NFSdv4Ops
deriving DecidableEq

deriving instance DecidableEq for Except

/-- The Go zero value `NFSdRPCStats{}` built at the top of
`NewNFSdRPCStats`: every counter is zero and the read-ahead histogram is
ten zeros. -/
def initNFSdRPCStats : NFSdRPCStats :=
  ⟨⟨0, 0, 0⟩, ⟨0, 0, 0, 0, 0⟩, ⟨0, 0⟩, ⟨0, 0⟩, ⟨0, List.replicate 10 0, 0⟩,
   ⟨0, 0, 0, 0⟩, ⟨0, 0, 0, 0, 0⟩,
   ⟨0, 0, 0, 0, 0, 0, 0, 0, 0, 0, 0, 0, 0, 0, 0, 0, 0, 0, 0⟩,
   ⟨0, 0, 0, 0, 0, 0, 0, 0, 0, 0, 0, 0, 0, 0, 0, 0, 0, 0, 0, 0, 0, 0, 0⟩,
   ⟨0, 0, 0⟩,
   ⟨0, 0, 0, 0, 0, 0, 0, 0, 0, 0, 0, 0, 0, 0, 0, 0, 0, 0, 0, 0, 0, 0, 0, 0,
    0, 0, 0, 0, 0, 0, 0, 0, 0, 0, 0, 0, 0, 0, 0⟩⟩

/-- Errors produced by `parseNFSdReplyCache`: the arity check
(`invalid NFSdReplyCache line %q`) and the three per-field number checks
(`couldn't parse NFSdReplyCache <field> %q`), each carrying the field name
and the offending token. -/
inductive ReplyCacheError where
  | arityMismatch (tokens : List String)
  | invalidNumber (field : String) (token : String)
deriving DecidableEq

/-- Errors produced by the dispatcher loop of `NewNFSdRPCStats`:
`invalid NFSd metric line %q` for a line with fewer than two tokens,
`invalid NFSd metric line %q` citing the first token for an unknown record
type, and the wrapper `error parsing NFSdReplyCache: %s` around an error
from `parseNFSdReplyCache`. -/
inductive ParseError where
  | malformedLine (line : String)
  | unknownRecordType (key : String)
  | replyCacheError (e : ReplyCacheError)
deriving DecidableEq

/-- Characters accepted by Go's `unicode.IsSpace` within the Latin-1 range,
which is what `strings.Fields` splits on. -/
def isSpaceChar (c : Char) : Bool :=
  c.toNat = 32 || c.toNat = 9 || c.toNat = 10 || c.toNat = 11 ||
  c.toNat = 12 || c.toNat = 13 || c.toNat = 133 || c.toNat = 160

/-- Core of `strings.Fields`: split a character list on whitespace,
discarding empty fields.  `cur` holds the current field reversed. -/
def fieldsCore : List Char → List Char → List (List Char)
  | [], cur => if cur.isEmpty then [] else [cur.reverse]
  | c :: rest, cur =>
    if isSpaceChar c then
      if cur.isEmpty then fieldsCore rest [] else cur.reverse :: fieldsCore rest []
    else fieldsCore rest (c :: cur)

/-- `strings.Fields`: the whitespace-separated tokens of a line. -/
def fields (s : String) : List String :=
  (fieldsCore s.data []).map fun cs => ⟨cs⟩

/-- `dropCR` from `bufio.ScanLines`: remove one trailing carriage return. -/
def dropCR (cs : List Char) : List Char :=
  match cs.getLast? with
  | some c => if c.toNat = 13 then cs.dropLast else cs
  | none => cs

/-- Core of `bufio.ScanLines`: split a character list at newlines.  A final
fragment with no terminating newline is still produced; an empty tail after
a final newline is not. -/
def splitLinesCore : List Char → List Char → List (List Char)
  | [], cur => if cur.isEmpty then [] else [cur.reverse]
  | c :: rest, cur =>
    if c.toNat = 10 then cur.reverse :: splitLinesCore rest []
    else splitLinesCore rest (c :: cur)

/-- The sequence of lines delivered by `bufio.NewScanner(f)` with the
default `ScanLines` split: newline-separated, one trailing carriage return
stripped per line. -/
def splitLines (s : String) : List String :=
  (splitLinesCore s.data []).map fun cs => ⟨dropCR cs⟩

/-- Core of the unsigned-integer token decoder: fold base-10 digits,
rejecting any non-digit character and any value that does not fit in an
unsigned 64-bit integer. -/
def parseUint64Core : List Char → Nat → Option Nat
  | [], acc => some acc
  | c :: rest, acc =>
    if c.isDigit then
      let v := acc * 10 + (c.toNat - 48)
      if v < 2 ^ 64 then parseUint64Core rest v else none
    else none

/-- The number decoder applied to each value token (`strconv` call in
`parseNFSdReplyCache`): a non-empty all-digit base-10 token whose value
fits in 64 bits, as dictated by the `uint64` field types. -/
def parseUint64 (s : String) : Option Nat :=
  if s.data.isEmpty then none else parseUint64Core s.data 0

/-- `parseNFSdReplyCache` from the source: requires exactly 3 tokens, then
decodes hits, misses and nocache in that order, reporting the field name
and offending token on a number-parse failure. -/
def parseNFSdReplyCache : List String → Except ReplyCacheError NFSdReplyCache
  | [t0, t1, t2] =>
    match parseUint64 t0 with
    | none => .error (.invalidNumber "hits" t0)
    | some hits =>
      match parseUint64 t1 with
      | none => .error (.invalidNumber "misses" t1)
      | some misses =>
        match parseUint64 t2 with
        | none => .error (.invalidNumber "nocache" t2)
        | some nocache => .ok ⟨hits, misses, nocache⟩
  | l => .error (.arityMismatch l)

/-- One iteration of the scanner loop in `NewNFSdRPCStats`: split the line
into fields, require at least key and value, then dispatch on the first
token.  The `rc` case binds the decoded record to a local and does not
store it; the `fh`, `io`, `th`, `ra`, `rpc`, `proc2`, `proc3`, `proc4` and
`proc4ops` cases are empty; there is no `net` case, so a `net` line falls
through to the default error. -/
def processLine (stats : NFSdRPCStats) (line : String) :
    Except ParseError NFSdRPCStats :=
  if (fields line).length < 2 then .error (.malformedLine line)
  else
    match fields line with
    | [] => .error (.malformedLine line)
    | key :: rest =>
      if key = "rc" then
        match parseNFSdReplyCache rest with
        | .error e => .error (.replyCacheError e)
        | .ok _replyCache => .ok stats
      else if key = "fh" then .ok stats
      else if key = "io" then .ok stats
      else if key = "th" then .ok stats
      else if key = "ra" then .ok stats
      else if key = "rpc" then .ok stats
      else if key = "proc2" then .ok stats
      else if key = "proc3" then .ok stats
      else if key = "proc4" then .ok stats
      else if key = "proc4ops" then .ok stats
      else .error (.unknownRecordType key)

/-- The scanner loop of `NewNFSdRPCStats`: fold `processLine` over the
lines, stopping at the first error. -/
def parseNFSdLines : List String → NFSdRPCStats → Except ParseError NFSdRPCStats
  | [], stats => .ok stats
  | l :: rest, stats =>
    match processLine stats l with
    | .error e => .error e
    | .ok stats' => parseNFSdLines rest stats'

/-- `NewNFSdRPCStats` from the source, as a pure function of the byte
stream it scans (file opening and stream-read errors belong to the
caller). -/
def NewNFSdRPCStats (input : String) : Except ParseError NFSdRPCStats :=
  parseNFSdLines (splitLines input) initNFSdRPCStats


set_option maxHeartbeats 1000000 in
/-- Every successful branch of the dispatcher returns the accumulator
unchanged: the `rc` case discards the decoded record and every other
recognized case is empty. -/
theorem processLine_ok (stats s' : NFSdRPCStats) (line : String)
    (h : processLine stats line = Except.ok s') : s' = stats := by
  unfold processLine at h
  repeat'
    first
      | exact (Except.ok.inj h).symm
      | exact Except.noConfusion h
      | split at h

/-- The scanner loop never changes the accumulator on a successful run. -/
theorem parseNFSdLines_ok (ls : List String) : ∀ (stats s : NFSdRPCStats),
    parseNFSdLines ls stats = Except.ok s → s = stats := by
  induction ls with
  | nil =>
    intro stats s h
    rw [parseNFSdLines] at h
    injection h with h
    exact h.symm
  | cons l rest ih =>
    intro stats s h
    rw [parseNFSdLines] at h
    cases hpl : processLine stats l with
    | error e => rw [hpl] at h; cases h
    | ok stats' =>
      rw [hpl] at h
      exact (ih stats' s h).trans (processLine_ok stats stats' l hpl)

/-- Claim C2: whenever the parse succeeds, the returned aggregate is the
zero-initialized `NFSdRPCStats{}`: the decoded reply-cache record from an
`rc` line is bound to a local and never stored, and every other recognized
record type has an empty dispatch case that decodes and stores nothing. -/
theorem nfsd_success_result_is_zero (input : String) (s : NFSdRPCStats)
    (h : NewNFSdRPCStats input = Except.ok s) : s = initNFSdRPCStats :=
  parseNFSdLines_ok (splitLines input) initNFSdRPCStats s h

/-- Witness for claim C2: the input `rc 8352 2 0` parses successfully and
the theorem instantiates to its result being the zero aggregate. -/
theorem nfsd_success_result_is_zero_witness :
    NewNFSdRPCStats "rc 8352 2 0" = Except.ok initNFSdRPCStats ∧
      initNFSdRPCStats = initNFSdRPCStats :=
  ⟨by decide, nfsd_success_result_is_zero "rc 8352 2 0" initNFSdRPCStats (by decide)⟩

set_option maxHeartbeats 1000000 in
/-- Claim C8 (amended): an empty line yields zero tokens, and a line is
rejected as a malformed metric line exactly when it splits into fewer than
2 whitespace-separated tokens — which includes the empty line, since the
dispatcher checks the token count before anything else. -/
theorem nfsd_malformed_line_iff :
    fields "" = [] ∧
    ∀ (stats : NFSdRPCStats) (line : String),
      processLine stats line = Except.error (ParseError.malformedLine line) ↔
        (fields line).length < 2 := by
  refine ⟨rfl, fun stats line => ?_⟩
  constructor
  · intro h
    by_contra hlen
    unfold processLine at h
    rw [if_neg hlen] at h
    rcases hf : fields line with _ | ⟨key, rest⟩
    · rw [hf] at hlen
      exact hlen (by simp)
    · rw [hf] at h
      repeat'
        first
          | contradiction
          | split at h
          | simp at h
  · intro hlen
    unfold processLine
    rw [if_pos hlen]

/-- Counterexample for claim C8 as stated: the input consisting of one
empty line makes the whole parse fail with the malformed-line error, while
the claim says an empty line does not cause the parse to fail. -/
theorem nfsd_empty_line_fails :
    NewNFSdRPCStats "\n" = Except.error (ParseError.malformedLine "") := by decide

/-- Claim C10: the parse is a pure function of the input bytes — equal
inputs yield structurally equal outcomes, with no dependence on prior
calls or shared mutable state. -/
theorem nfsd_parse_deterministic (s t : String) (h : s = t) :
    NewNFSdRPCStats s = NewNFSdRPCStats t := by rw [h]

/-- Witness for claim C10 at the concrete input `rc 8352 2 0`. -/
theorem nfsd_parse_deterministic_witness :
    ("rc 8352 2 0" : String) = "rc 8352 2 0" ∧
      NewNFSdRPCStats "rc 8352 2 0" = NewNFSdRPCStats "rc 8352 2 0" :=
  ⟨rfl, nfsd_parse_deterministic "rc 8352 2 0" "rc 8352 2 0" rfl⟩

/-- Claim C9: the value tokens of the line `rc 8352 2 0` decode to
`NFSdReplyCache` with `Hits = 8352`, `Misses = 2`, `NoCache = 0`, the first
token going to `Hits`, the second to `Misses` and the third to `NoCache`. -/
theorem nfsd_rc_example :
    parseNFSdReplyCache ["8352", "2", "0"] =
      Except.ok ⟨8352, 2, 0⟩ := by decide

/-- Claim C1, evaluation at the failing input: the well-formed line
`rc 1 2 0` parses successfully, but the returned aggregate is the zero
value, so its `Hits` counter is `0` rather than the literal token value
`1`. -/
theorem nfsd_wellformed_counters_eval :
    NewNFSdRPCStats "rc 1 2 0" = Except.ok initNFSdRPCStats ∧
      initNFSdRPCStats.NFSdReplyCache.Hits = 0 := by
  exact ⟨by decide, rfl⟩

/-- Claim C3, evaluation at the failing input: a `net` line fails with the
unknown-record-type error citing `net`, because the switch has no `net`
case, exactly as an uncatalogued key such as `foo` does. -/
theorem nfsd_net_line_eval :
    NewNFSdRPCStats "net 1 2 3 4" = Except.error (ParseError.unknownRecordType "net") ∧
      NewNFSdRPCStats "foo 1" = Except.error (ParseError.unknownRecordType "foo") := by
  exact ⟨by decide, by decide⟩

/-- Claim C4, evaluation at the failing input: `proc4ops 2 1` (declared
count 2 with only one trailing token) parses successfully instead of
failing with an arity mismatch, and `proc4ops 2 1 2` also succeeds while
storing nothing — the `Values` field of the result stays `0`. -/
theorem nfsd_proc4ops_eval :
    NewNFSdRPCStats "proc4ops 2 1" = Except.ok initNFSdRPCStats ∧
      NewNFSdRPCStats "proc4ops 2 1 2" = Except.ok initNFSdRPCStats ∧
      initNFSdRPCStats.NFSdv4Ops.Values = 0 := by
  exact ⟨by decide, by decide, rfl⟩

/-- Claim C5, evaluation at the failing input: the file-handles line
`fh 1` carries 1 value token instead of 5 yet parses successfully, because
the `fh` dispatch case is empty; only the reply-cache decoder enforces its
arity, rejecting `rc 1 2`. -/
theorem nfsd_fixed_arity_eval :
    NewNFSdRPCStats "fh 1" = Except.ok initNFSdRPCStats ∧
      NewNFSdRPCStats "rc 1 2" =
        Except.error (ParseError.replyCacheError
          (ReplyCacheError.arityMismatch ["1", "2"])) := by
  exact ⟨by decide, by decide⟩

/-- Claim C6, evaluation at the failing input: the read-ahead line `ra 1`
carries 1 value token instead of 12 yet parses successfully, and the
well-formed 12-token example line leaves the cache size at `0` rather than
`256`, because the `ra` dispatch case is empty. -/
theorem nfsd_readahead_eval :
    NewNFSdRPCStats "ra 1" = Except.ok initNFSdRPCStats ∧
      NewNFSdRPCStats "ra 256 10 20 30 0 0 0 0 0 0 5 40" = Except.ok initNFSdRPCStats ∧
      initNFSdRPCStats.NFSdReadAheadCache.CacheSize = 0 := by
  exact ⟨by decide, by decide, rfl⟩

/-- Claim C7, evaluation at the failing input: the non-numeric token `12a`
in a numeric position of an `fh` line is accepted silently because the
`fh` dispatch case decodes nothing, while the reply-cache decoder does
reject the same token, naming the field `hits` and the token `12a`. -/
theorem nfsd_invalid_number_eval :
    NewNFSdRPCStats "fh 12a 0 0 0 0" = Except.ok initNFSdRPCStats ∧
      parseNFSdReplyCache ["12a", "2", "0"] =
        Except.error (ReplyCacheError.invalidNumber "hits" "12a") := by
  exact ⟨by decide, by decide⟩
